import Mathlib

/-!
Shallow embedding of the `api-igp-sismos` repository (two AWS Lambda
handlers written in Python) for checking its natural-language
specification.

Embedded source files:
* `src/igp_scraper.py` — fetches the last 10 earthquakes from the IGP
  ArcGIS REST service (`_arcgis_last10`), normalizes each attributes
  mapping into a DynamoDB item (`_to_item`, `_parse_epoch_ms`), writes
  the items with a `batch_writer(overwrite_by_pkeys=["id"])`
  (`_put_items`) and assembles the HTTP response (`lambda_handler`).
* `src/igp_sismos_api.py` — its store writer
  `save_sismos_to_dynamodb` performs one conditional
  `put_item(..., ConditionExpression='attribute_not_exists(id)')`
  per record.

Python scalar values (JSON scalars) are modelled by `Value`; `None`
and JSON `null` are both `Value.vNull`.  Numbers are modelled as exact
decimals (`Value.vDec m e` denotes `m / 10^e`); the DynamoDB store is
a key-ordered association list.  Machine floats never matter for the
claims checked here: all arithmetic in the embedded fragments is
integer or exact-decimal arithmetic.
-/

namespace IgpSismos

/-- A Python/JSON scalar value.  `vNull` models both JSON `null` and
Python `None`; `vDec m e` is an exact decimal `m / 10^e` (Python
`decimal.Decimal`, and the model of numeric literals). -/
inductive Value where
  | vNull : Value
  | vStr : String → Value
  | vInt : Int → Value
  | vDec : Int → Nat → Value
deriving DecidableEq

/-- Python truthiness of a scalar, as used by `a.get("code") or ...`. -/
def Value.truthy : Value → Bool
  | .vNull => false
  | .vStr s => decide (s ≠ "")
  | .vInt n => decide (n ≠ 0)
  | .vDec m _ => decide (m ≠ 0)

/-- One decimal digit as a character. -/
def digit_char (n : Nat) : Char := Char.ofNat (48 + n % 10)

/-- Digit-at-a-time rendering loop; the fuel argument only bounds the
recursion depth (any fuel above the digit count gives the same
result). -/
def nat_str_go (fuel n : Nat) : String :=
  match fuel with
  | 0 => ""
  | fuel' + 1 =>
    if n < 10 then String.singleton (digit_char n)
    else nat_str_go fuel' (n / 10) ++ String.singleton (digit_char (n % 10))

/-- Decimal rendering of a natural number (Python `str` of a
non-negative integer). -/
def nat_str (n : Nat) : String := nat_str_go (n + 1) n

/-- Decimal rendering of an integer (Python `str` of an `int`). -/
def int_str (m : Int) : String :=
  if m < 0 then "-" ++ nat_str m.natAbs else nat_str m.natAbs

/-- Left-pad a string with zeros to the given width. -/
def pad_zeros (s : String) (n : Nat) : String :=
  if s.length < n then String.mk (List.replicate (n - s.length) '0') ++ s else s

/-- Rendering of the exact decimal `m / 10^e` (Python `str` of the
number). -/
def render_dec (m : Int) (e : Nat) : String :=
  if e = 0 then int_str m
  else (if m < 0 then "-" else "") ++ nat_str (m.natAbs / 10 ^ e) ++ "." ++
    pad_zeros (nat_str (m.natAbs % 10 ^ e)) e

/-- Python `str` of a scalar value (`str(None) = "None"`). -/
def Value.pyStr : Value → String
  | .vNull => "None"
  | .vStr s => s
  | .vInt n => int_str n
  | .vDec m e => render_dec m e

/-- Is the character an ASCII decimal digit? -/
def is_dig (c : Char) : Bool := decide (48 ≤ c.toNat ∧ c.toNat ≤ 57)

/-- ASCII whitespace, as stripped by Python's `int` and `Decimal`
constructors. -/
def is_space (c : Char) : Bool :=
  decide (c.toNat = 32 ∨ c.toNat = 9 ∨ c.toNat = 10 ∨ c.toNat = 13 ∨
    c.toNat = 11 ∨ c.toNat = 12)

/-- Strip leading and trailing whitespace from a character list. -/
def strip_ws (cs : List Char) : List Char :=
  (((cs.dropWhile is_space).reverse.dropWhile is_space)).reverse

/-- Numeric value of a digit string. -/
def digits_val (cs : List Char) : Nat :=
  cs.foldl (fun acc c => acc * 10 + (c.toNat - 48)) 0

/-- Python `int(s)` on a string: optional surrounding whitespace, an
optional sign, then decimal digits; anything else raises (`none`). -/
def parse_int_string (s : String) : Option Int :=
  let cs := strip_ws s.toList
  let p : Int × List Char :=
    match cs with
    | '-' :: r => (-1, r)
    | '+' :: r => (1, r)
    | r => (1, r)
  if p.2 ≠ [] ∧ p.2.all is_dig then some (p.1 * (digits_val p.2 : Int)) else none

/-- Truncating division of `m` by `10^e` (Python `int()` applied to a
number rounds toward zero). -/
def trunc_div_pow10 (m : Int) (e : Nat) : Int :=
  if 0 ≤ m then ((m.toNat / 10 ^ e : Nat) : Int)
  else -((m.natAbs / 10 ^ e : Nat) : Int)

/-- Python `int(v)` of a scalar: `None` raises (`none`), strings are
parsed, exact decimals are truncated toward zero. -/
def py_int : Value → Option Int
  | .vNull => none
  | .vStr s => parse_int_string s
  | .vInt n => some n
  | .vDec m e => some (trunc_div_pow10 m e)

/-- Python `decimal.Decimal(s)` on a plain numeric string: optional
surrounding whitespace, optional sign, digits with an optional
fractional part, and an optional decimal exponent.  The result is the
exact decimal `(mantissa, scale)` with value `mantissa / 10^scale`.
Non-numeric strings raise `InvalidOperation` (`none`).  The special
values `NaN`/`Infinity` are outside this model. -/
def parse_decimal (s : String) : Option (Int × Nat) :=
  let cs := strip_ws s.toList
  let p : Int × List Char :=
    match cs with
    | '-' :: r => (-1, r)
    | '+' :: r => (1, r)
    | r => (1, r)
  let ip := p.2.takeWhile is_dig
  let rest1 := p.2.dropWhile is_dig
  let q : List Char × List Char :=
    match rest1 with
    | '.' :: r => (r.takeWhile is_dig, r.dropWhile is_dig)
    | r => ([], r)
  if ip = [] ∧ q.1 = [] then none
  else
    let mant : Int := p.1 * (digits_val (ip ++ q.1) : Int)
    let scale := q.1.length
    match q.2 with
    | [] => some (mant, scale)
    | c :: r =>
      if c = 'e' ∨ c = 'E' then
        let px : Int × List Char :=
          match r with
          | '-' :: rr => (-1, rr)
          | '+' :: rr => (1, rr)
          | rr => (1, rr)
        if px.2 ≠ [] ∧ px.2.all is_dig then
          let tot : Int := px.1 * (digits_val px.2 : Int) - (scale : Int)
          if 0 ≤ tot then some (mant * ((10 : Int) ^ tot.toNat), 0)
          else some (mant, (-tot).toNat)
        else none
      else none

/-- A raw upstream attributes mapping: string keys to scalar values
(one ArcGIS feature's `attributes` dict). -/
abbrev AttrMap := List (String × Value)

/-- Python `a.get(k)`: `None` when the key is absent (and a stored
JSON `null` is already `vNull`). -/
def pyGet (a : AttrMap) (k : String) : Value :=
  match a.lookup k with
  | some v => v
  | none => .vNull

/-- Python `a.get(k, d)`: the default is used only when the key is
absent; a stored `null` is returned as `vNull`. -/
def pyGetD (a : AttrMap) (k : String) (d : Value) : Value :=
  match a.lookup k with
  | some v => v
  | none => d

/-- A (timezone-aware) Python `datetime` value: `wallMs` is the wall
clock expressed as milliseconds from the epoch 1970-01-01T00:00:00 at
that wall clock, and `offsetMin` is the fixed UTC offset in minutes.
The instant denoted is `wallMs - offsetMin * 60000`. -/
structure PyDateTime where
  wallMs : Int
  offsetMin : Int
deriving DecidableEq

/-- The instant (epoch milliseconds, UTC) denoted by an aware
datetime. -/
def PyDateTime.instantMs (d : PyDateTime) : Int := d.wallMs - d.offsetMin * 60000

/-- Epoch milliseconds of `0001-01-01T00:00:00` — `datetime`'s lower
bound (`datetime.min`). -/
def MIN_EPOCH_MS : Int := -62135596800000

/-- Epoch milliseconds of `9999-12-31T23:59:59.999` — `datetime`'s
upper bound at the millisecond precision of this model. -/
def MAX_EPOCH_MS : Int := 253402300799999

/-- Proleptic-Gregorian date of a day count from 1970-01-01
(Howard Hinnant's `civil_from_days`, as implemented inside CPython's
`datetime`): `(year, month, day)`. -/
def civil_from_days (z : Int) : Int × Nat × Nat :=
  let z' := z + 719468
  let era := Int.fdiv z' 146097
  let doe := (z' - era * 146097).toNat
  let yoe := (doe - doe / 1460 + doe / 36524 - doe / 146096) / 365
  let y : Int := (yoe : Int) + era * 400
  let doy := doe - (365 * yoe + yoe / 4 - yoe / 100)
  let mp := (5 * doy + 2) / 153
  let d := doy - (153 * mp + 2) / 5 + 1
  let m := if mp < 10 then mp + 3 else mp - 9
  (if m ≤ 2 then y + 1 else y, m, d)

/-- Zero-padded rendering helpers for ISO-8601 pieces. -/
def pad2 (n : Nat) : String := pad_zeros (nat_str n) 2

/-- Four-digit zero-padded year. -/
def pad4 (n : Nat) : String := pad_zeros (nat_str n) 4

/-- Six-digit zero-padded microseconds. -/
def pad6 (n : Nat) : String := pad_zeros (nat_str n) 6

/-- The wall-clock part of `datetime.isoformat()`:
`YYYY-MM-DDTHH:MM:SS[.ffffff]` at millisecond precision (the
fractional part is omitted when the microseconds are zero). -/
def iso_wall_str (d : PyDateTime) : String :=
  let day := Int.fdiv d.wallMs 86400000
  let msOfDay := (d.wallMs - day * 86400000).toNat
  let ymd := civil_from_days day
  let hh := msOfDay / 3600000
  let mi := msOfDay % 3600000 / 60000
  let ss := msOfDay % 60000 / 1000
  let micro := msOfDay % 1000 * 1000
  pad4 ymd.1.toNat ++ "-" ++ pad2 ymd.2.1 ++ "-" ++ pad2 ymd.2.2 ++ "T" ++
    pad2 hh ++ ":" ++ pad2 mi ++ ":" ++ pad2 ss ++
    (if micro = 0 then "" else "." ++ pad6 micro)

/-- The UTC-offset tail of `datetime.isoformat()` on an aware value:
`±HH:MM`. -/
def iso_offset_str (d : PyDateTime) : String :=
  (if d.offsetMin < 0 then "-" else "+") ++
    pad2 (d.offsetMin.natAbs / 60) ++ ":" ++ pad2 (d.offsetMin.natAbs % 60)

/-- Python `datetime.isoformat()` of an aware datetime: the wall-clock
rendering followed by the UTC-offset tail. -/
def isoformat (d : PyDateTime) : String := iso_wall_str d ++ iso_offset_str d

/-- Core of `_parse_epoch_ms` (src/igp_scraper.py:73-89), before ISO
rendering: `None` or an unconvertible/out-of-range value yields `none`
(the Python code returns `("", "")` through `except`).  Otherwise
`d_utc` is the instant with offset `+00:00`, and
`d_lima = (d_utc + timedelta(hours=-5)).replace(tzinfo=UTC-5)`: the
wall clock moves back 5 hours and the offset becomes `-05:00`. -/
def parse_epoch_core (v : Value) : Option (PyDateTime × PyDateTime) :=
  match py_int v with
  | none => none
  | some t =>
    if t < MIN_EPOCH_MS ∨ MAX_EPOCH_MS < t then none
    else if t + (-5 * 3600000) < MIN_EPOCH_MS then none
    else some (⟨t, 0⟩, ⟨t + (-5 * 3600000), -300⟩)

/-- `_parse_epoch_ms` (src/igp_scraper.py:73-89): epoch milliseconds
to `(iso_utc, iso_local_PET)`; any failure yields `("", "")`. -/
def parse_epoch_ms (v : Value) : String × String :=
  match parse_epoch_core v with
  | none => ("", "")
  | some dd => (isoformat dd.1, isoformat dd.2)

/-- A DynamoDB item: an ordered mapping of attribute names to scalar
values (insertion order of the Python dict literal). -/
abbrev Item := List (String × Value)

/-- The id expression of `_to_item` (src/igp_scraper.py:99):
`a.get("code") or f"OBJ-{a.get('objectid')}"`, then `str(...)`. -/
def id_val (a : AttrMap) : String :=
  if (pyGet a "code").truthy then (pyGet a "code").pyStr
  else "OBJ-" ++ (pyGet a "objectid").pyStr

/-- `decimal.Decimal(str(x)) if x is not None else None`
(src/igp_scraper.py:111-116): a null input stays null; a non-null
input is rendered with `str` and parsed as a decimal, raising
`InvalidOperation` on failure. -/
def coerce_dec (v : Value) : Except String Value :=
  match v with
  | .vNull => .ok .vNull
  | w =>
    match parse_decimal w.pyStr with
    | some me => .ok (.vDec me.1 me.2)
    | none => .error "InvalidOperation"

/-- The item dict literal of `_to_item` (src/igp_scraper.py:104-124),
in source order, with the four decimal coercions passed in. -/
def item_fields (a : AttrMap) (now : Int) (mag prof lat lon : Value) : Item :=
  [("id", .vStr (id_val a)),
   ("code", pyGetD a "code" (.vStr "")),
   ("fecha_local", pyGetD a "fecha" (.vStr "")),
   ("hora_local", pyGetD a "hora" (.vStr "")),
   ("fechaevento_iso_utc", .vStr (parse_epoch_ms (pyGet a "fechaevento")).1),
   ("fechaevento_iso_lima", .vStr (parse_epoch_ms (pyGet a "fechaevento")).2),
   ("magnitud", mag),
   ("mag_str", pyGetD a "mag" (.vStr "")),
   ("prof_km", prof),
   ("profundidad_tipo", pyGetD a "profundidad" (.vStr "")),
   ("lat", lat),
   ("lon", lon),
   ("referencia", pyGetD a "ref" (.vStr "")),
   ("intensidad", pyGetD a "int_" (.vStr "")),
   ("departamento", pyGetD a "departamento" (.vStr "")),
   ("sentido", pyGetD a "sentido" (.vStr "")),
   ("ultimo_flag", pyGetD a "ultimo" (.vStr "")),
   ("reporte_flag", pyGetD a "reporte" (.vStr "")),
   ("ingestion_ts", .vInt now)]

/-- `item = {k: v for k, v in item.items() if v is not None}`
(src/igp_scraper.py:126): drop the entries whose value is `None`. -/
def strip_nones (l : Item) : Item :=
  l.filter (fun kv => decide (kv.2 ≠ Value.vNull))

/-- `_to_item` (src/igp_scraper.py:92-127).  `now` stands for
`int(time.time())`.  The four `decimal.Decimal` coercions are
evaluated in dict-literal order (`magnitud`, `prof`, `lat`, `lon`);
the first failure raises out of the function (`Except.error`). -/
def to_item (a : AttrMap) (now : Int) : Except String Item :=
  match coerce_dec (pyGet a "magnitud") with
  | .error e => .error e
  | .ok mag =>
    match coerce_dec (pyGet a "prof") with
    | .error e => .error e
    | .ok prof =>
      match coerce_dec (pyGet a "lat") with
      | .error e => .error e
      | .ok lat =>
        match coerce_dec (pyGet a "lon") with
        | .error e => .error e
        | .ok lon => .ok (strip_nones (item_fields a now mag prof lat lon))

/-- The DynamoDB table contents: an association list from the `id`
partition-key string to the stored item.  The physical order of
entries is irrelevant to all lookups. -/
abbrev Store := List (String × Item)

/-- Write an item under a key, replacing any existing entry with that
key (an unconditional DynamoDB `put_item`). -/
def store_put : Store → String → Item → Store
  | [], k, v => [(k, v)]
  | (k', v') :: rest, k, v =>
    if k' = k then (k, v) :: rest else (k', v') :: store_put rest k v

/-- The partition-key value of an item: its `id` attribute.  Both
writers in the repository only ever store string ids (`_to_item`
applies `str`, the api variant uses a UUID string). -/
def item_id (it : Item) : String :=
  match it.lookup "id" with
  | some (.vStr s) => s
  | some v => v.pyStr
  | none => ""

/-- `_put_items` (src/igp_scraper.py:130-141): a
`batch_writer(overwrite_by_pkeys=["id"]) ` loop of unconditional
`put_item` calls; each put overwrites any existing item with the same
`id`, and `count` is incremented for every item.  Returns the final
store and the count. -/
def put_items : List Item → Store → Store × Nat
  | [], st => (st, 0)
  | it :: rest, st =>
    let next := put_items rest (store_put st (item_id it) it)
    (next.1, next.2 + 1)

/-- `save_sismos_to_dynamodb` (src/igp_sismos_api.py:391-420): one
`put_item(Item=sismo, ConditionExpression='attribute_not_exists(id)')`
per record.  A put succeeds only when no item with that `id` exists;
`saved_count` counts the successes, and the third component counts the
`ConditionalCheckFailedException` branches (the "Ya existe" prints).
Returns `(store, saved_count, already_exists)`. -/
def save_sismos_to_dynamodb : List Item → Store → Store × Nat × Nat
  | [], st => (st, 0, 0)
  | sismo :: rest, st =>
    match st.lookup (item_id sismo) with
    | some _ =>
      let next := save_sismos_to_dynamodb rest st
      (next.1, next.2.1, next.2.2 + 1)
    | none =>
      let next := save_sismos_to_dynamodb rest (store_put st (item_id sismo) sismo)
      (next.1, next.2.1 + 1, next.2.2)

/-- The decoded JSON body of the ArcGIS query response: an optional
top-level `error` field (its message), and an optional `features`
list, each feature an optional `attributes` mapping (`none` when the
`attributes` key is absent or null). -/
structure ArcgisBody where
  error : Option String
  features : Option (List (Option AttrMap))
deriving DecidableEq

/-- The outcome of the outbound `requests.get` call: either a
transport-level failure (`requests.ConnectionError`, timeout, ...) or
a decoded response with an HTTP status code. -/
inductive HttpResult where
  | transportError : String → HttpResult
  | response : Nat → ArcgisBody → HttpResult
deriving DecidableEq

/-- The ways `_arcgis_last10` fails: `requests.HTTPError` raised by
`raise_for_status()`, the `RuntimeError` raised on an `error` body
field, or a transport exception propagating through. -/
inductive FetchError where
  | httpError : Nat → FetchError
  | runtimeError : String → FetchError
  | transport : String → FetchError
deriving DecidableEq

/-- The HTTP status `lambda_handler` answers for each fetch failure:
only a `requests.HTTPError` is caught by the 502 arm; the
`RuntimeError` for an upstream `error` field and any transport
exception fall to `except Exception` and yield 500. -/
def expected_status : FetchError → Nat
  | .httpError _ => 502
  | .runtimeError _ => 500
  | .transport _ => 500

/-- `requests.Response.raise_for_status()` raises exactly for status
codes in `[400, 600)`. -/
def raises_for_status (st : Nat) : Bool :=
  decide (400 ≤ st) && decide (st < 600)

/-- `_arcgis_last10` (src/igp_scraper.py:44-70): after
`raise_for_status()` and the `"error" in data` check, it reads
`data.get("features", [])` — an absent or empty feature list is NOT an
error — and collects `f.get("attributes", {}) or {}` for each
feature. -/
def arcgis_last10 (r : HttpResult) : Except FetchError (List AttrMap) :=
  match r with
  | .transportError m => .error (.transport m)
  | .response st body =>
    if raises_for_status st then .error (.httpError st)
    else
      match body.error with
      | some e => .error (.runtimeError ("ArcGIS error: " ++ e))
      | none =>
        .ok ((body.features.getD []).map (fun f => f.getD []))

/-- `[_to_item(a) for a in attrs]` (src/igp_scraper.py:147): the list
comprehension evaluates in order and the first exception aborts it. -/
def map_to_items : List AttrMap → Int → Except String (List Item)
  | [], _ => .ok []
  | a :: rest, now =>
    match to_item a now with
    | .error e => .error e
    | .ok it =>
      match map_to_items rest now with
      | .error e => .error e
      | .ok its => .ok (it :: its)

/-- The structured content of the handler's HTTP response:
`statusCode`, and the JSON body's `ok` flag, `saved` count, `error`
string and `sample` list (the constant headers and the `table` /
`source` strings are omitted). -/
structure HandlerResponse where
  statusCode : Nat
  ok : Bool
  saved : Option Nat
  errMsg : Option String
  sample : List Item
deriving DecidableEq

/-- `lambda_handler` (src/igp_scraper.py:144-175).  `now` stands for
`int(time.time())` and `store` for the DynamoDB table contents.  The
`except requests.HTTPError` arm returns 502; every other exception —
including the `RuntimeError` raised on an upstream `error` field, any
transport exception, and a `decimal.InvalidOperation` from
`_to_item` — falls to `except Exception` and returns 500.  The store
is returned alongside the response (unchanged unless `_put_items`
ran). -/
def lambda_handler (r : HttpResult) (now : Int) (store : Store) :
    HandlerResponse × Store :=
  match arcgis_last10 r with
  | .ok attrs =>
    match map_to_items attrs now with
    | .ok items =>
      let res := put_items items store
      (⟨200, true, some res.2, none, items.take 2⟩, res.1)
    | .error e => (⟨500, false, none, some e, []⟩, store)
  | .error (.httpError st) =>
    (⟨502, false, none, some ("Upstream HTTPError: status " ++ nat_str st), []⟩, store)
  | .error (.runtimeError m) => (⟨500, false, none, some m, []⟩, store)
  | .error (.transport m) => (⟨500, false, none, some m, []⟩, store)

/-- Lookup of a key in an `.ok` item; `none` on an exception. -/
def ok_lookup (r : Except String Item) (k : String) : Option Value :=
  match r with
  | .ok it => it.lookup k
  | .error _ => none

/-- The item `_to_item` produces (at `ingestion_ts = 0`) from an empty
attributes mapping: every defaulted string field is kept as `""`, the
four decimal fields are stripped, and the id falls back to
`"OBJ-None"`. -/
def item_empty_attrs : Item :=
  [("id", Value.vStr "OBJ-None"),
   ("code", Value.vStr ""),
   ("fecha_local", Value.vStr ""),
   ("hora_local", Value.vStr ""),
   ("fechaevento_iso_utc", Value.vStr ""),
   ("fechaevento_iso_lima", Value.vStr ""),
   ("mag_str", Value.vStr ""),
   ("profundidad_tipo", Value.vStr ""),
   ("referencia", Value.vStr ""),
   ("intensidad", Value.vStr ""),
   ("departamento", Value.vStr ""),
   ("sentido", Value.vStr ""),
   ("ultimo_flag", Value.vStr ""),
   ("reporte_flag", Value.vStr ""),
   ("ingestion_ts", Value.vInt 0)]

/-- The item `_to_item` produces (at `ingestion_ts = 0`) from
`{"objectid": 998877}`. -/
def item_objectid : Item :=
  [("id", Value.vStr "OBJ-998877"),
   ("code", Value.vStr ""),
   ("fecha_local", Value.vStr ""),
   ("hora_local", Value.vStr ""),
   ("fechaevento_iso_utc", Value.vStr ""),
   ("fechaevento_iso_lima", Value.vStr ""),
   ("mag_str", Value.vStr ""),
   ("profundidad_tipo", Value.vStr ""),
   ("referencia", Value.vStr ""),
   ("intensidad", Value.vStr ""),
   ("departamento", Value.vStr ""),
   ("sentido", Value.vStr ""),
   ("ultimo_flag", Value.vStr ""),
   ("reporte_flag", Value.vStr ""),
   ("ingestion_ts", Value.vInt 0)]

lemma length_pos_ne_empty (s : String) (h : 0 < s.length) : s ≠ "" := by
  intro hc
  rw [hc] at h
  exact Nat.lt_irrefl 0 h

lemma nat_str_length_pos (n : Nat) : 0 < (nat_str n).length := by
  show 0 < (nat_str_go (n + 1) n).length
  rw [nat_str_go]
  split
  · have h1 : (String.singleton (digit_char n)).length = 1 := rfl
    omega
  · rw [String.length_append]
    have h1 : (String.singleton (digit_char (n % 10))).length = 1 := rfl
    omega

lemma nat_str_ne_empty (n : Nat) : nat_str n ≠ "" :=
  length_pos_ne_empty _ (nat_str_length_pos n)

lemma int_str_ne_empty (m : Int) : int_str m ≠ "" := by
  unfold int_str
  split
  · refine length_pos_ne_empty _ ?_
    rw [String.length_append]
    have := nat_str_length_pos m.natAbs
    omega
  · exact nat_str_ne_empty _

lemma render_dec_ne_empty (m : Int) (e : Nat) : render_dec m e ≠ "" := by
  unfold render_dec
  split
  · exact int_str_ne_empty m
  · refine length_pos_ne_empty _ ?_
    rw [String.length_append, String.length_append, String.length_append]
    have := nat_str_length_pos (m.natAbs / 10 ^ e)
    omega

lemma pyStr_truthy_ne_empty (v : Value) (h : v.truthy = true) : v.pyStr ≠ "" := by
  cases v with
  | vNull => simp [Value.truthy] at h
  | vStr s =>
    simp only [Value.truthy, decide_eq_true_eq] at h
    simpa [Value.pyStr] using h
  | vInt n => exact int_str_ne_empty n
  | vDec m e => exact render_dec_ne_empty m e

lemma id_val_ne_empty (a : AttrMap) : id_val a ≠ "" := by
  unfold id_val
  split
  · exact pyStr_truthy_ne_empty _ (by assumption)
  · refine length_pos_ne_empty _ ?_
    rw [String.length_append]
    have h4 : ("OBJ-" : String).length = 4 := rfl
    omega

lemma lookup_eq_none_of_not_mem (l : List (String × Value)) (k : String)
    (h : k ∉ l.map Prod.fst) : l.lookup k = none := by
  induction l with
  | nil => rfl
  | cons hd tl ih =>
    obtain ⟨k', v'⟩ := hd
    simp only [List.map_cons, List.mem_cons, not_or] at h
    obtain ⟨h1, h2⟩ := h
    simp only [List.lookup]
    rw [show (k == k') = false from beq_eq_false_iff_ne.mpr h1]
    exact ih h2

/-- Lookup through the null-stripping filter, when the keys of the
item are distinct: a null binding disappears, any other binding is
preserved. -/
lemma lookup_strip (l : Item) (k : String) (h : (l.map Prod.fst).Nodup) :
    (strip_nones l).lookup k =
      match l.lookup k with
      | none => none
      | some v => if v = Value.vNull then none else some v := by
  induction l with
  | nil => rfl
  | cons hd tl ih =>
    obtain ⟨k', v'⟩ := hd
    simp only [List.map_cons, List.nodup_cons] at h
    obtain ⟨hk', hnd⟩ := h
    by_cases hv : v' = Value.vNull
    · subst hv
      have hdrop : strip_nones ((k', Value.vNull) :: tl) = strip_nones tl := by
        simp [strip_nones]
      rw [hdrop, ih hnd]
      by_cases hkk : k = k'
      · subst hkk
        rw [lookup_eq_none_of_not_mem tl k hk']
        simp [List.lookup]
      · simp only [List.lookup]
        rw [show (k == k') = false from beq_eq_false_iff_ne.mpr hkk]
    · have hkeep : strip_nones ((k', v') :: tl) = (k', v') :: strip_nones tl := by
        simp [strip_nones, hv]
      rw [hkeep]
      by_cases hkk : k = k'
      · subst hkk
        simp [List.lookup, hv]
      · simp only [List.lookup]
        rw [show (k == k') = false from beq_eq_false_iff_ne.mpr hkk]
        exact ih hnd

lemma item_fields_keys_nodup (a : AttrMap) (now : Int) (mag prof lat lon : Value) :
    (((item_fields a now mag prof lat lon).map Prod.fst)).Nodup := by
  show (["id", "code", "fecha_local", "hora_local", "fechaevento_iso_utc",
    "fechaevento_iso_lima", "magnitud", "mag_str", "prof_km",
    "profundidad_tipo", "lat", "lon", "referencia", "intensidad",
    "departamento", "sentido", "ultimo_flag", "reporte_flag",
    "ingestion_ts"] : List String).Nodup
  decide

lemma item_fields_lookup_id (a : AttrMap) (now : Int) (mag prof lat lon : Value) :
    (item_fields a now mag prof lat lon).lookup "id" = some (.vStr (id_val a)) := rfl

lemma item_fields_lookup_magnitud (a : AttrMap) (now : Int) (mag prof lat lon : Value) :
    (item_fields a now mag prof lat lon).lookup "magnitud" = some mag := rfl

/-- Elimination form of `to_item`: a successful normalization is the
stripped field list for some successfully coerced decimals. -/
lemma to_item_ok {a : AttrMap} {now : Int} {item : Item}
    (h : to_item a now = .ok item) :
    ∃ mag prof lat lon,
      coerce_dec (pyGet a "magnitud") = .ok mag ∧
      coerce_dec (pyGet a "prof") = .ok prof ∧
      coerce_dec (pyGet a "lat") = .ok lat ∧
      coerce_dec (pyGet a "lon") = .ok lon ∧
      item = strip_nones (item_fields a now mag prof lat lon) := by
  unfold to_item at h
  cases h1 : coerce_dec (pyGet a "magnitud") with
  | error e => rw [h1] at h; exact absurd h (by simp)
  | ok mag =>
    rw [h1] at h
    cases h2 : coerce_dec (pyGet a "prof") with
    | error e => rw [h2] at h; exact absurd h (by simp)
    | ok prof =>
      rw [h2] at h
      cases h3 : coerce_dec (pyGet a "lat") with
      | error e => rw [h3] at h; exact absurd h (by simp)
      | ok lat =>
        rw [h3] at h
        cases h4 : coerce_dec (pyGet a "lon") with
        | error e => rw [h4] at h; exact absurd h (by simp)
        | ok lon =>
          rw [h4] at h
          simp only [Except.ok.injEq] at h
          exact ⟨mag, prof, lat, lon, rfl, rfl, rfl, rfl, h.symm⟩

/-- The stripped item always retains the `id` binding. -/
lemma strip_lookup_id (a : AttrMap) (now : Int) (mag prof lat lon : Value) :
    (strip_nones (item_fields a now mag prof lat lon)).lookup "id" =
      some (.vStr (id_val a)) := by
  rw [lookup_strip _ _ (item_fields_keys_nodup a now mag prof lat lon),
    item_fields_lookup_id]
  simp

/-- A null raw `magnitud` never reaches the stored item: the `None`
entry is filtered out by the comprehension on line 126. -/
lemma magnitud_null_stripped {a : AttrMap} {now : Int} {item : Item}
    (h : to_item a now = .ok item) (hmag : pyGet a "magnitud" = Value.vNull) :
    item.lookup "magnitud" = none := by
  obtain ⟨mag, prof, lat, lon, h1, h2, h3, h4, hitem⟩ := to_item_ok h
  rw [hmag] at h1
  have hm : mag = Value.vNull := by
    simpa [coerce_dec] using h1.symm
  subst hitem
  rw [lookup_strip _ _ (item_fields_keys_nodup a now mag prof lat lon),
    item_fields_lookup_magnitud, hm]
  simp

/-- Batch length is preserved by a successful normalization pass. -/
lemma map_to_items_length (attrs : List AttrMap) (now : Int) (items : List Item)
    (h : map_to_items attrs now = .ok items) : items.length = attrs.length := by
  induction attrs generalizing items with
  | nil =>
    unfold map_to_items at h
    simp only [Except.ok.injEq] at h
    rw [← h]
  | cons a rest ih =>
    unfold map_to_items at h
    cases h1 : to_item a now with
    | error e => rw [h1] at h; exact absurd h (by simp)
    | ok it =>
      rw [h1] at h
      cases h2 : map_to_items rest now with
      | error e => rw [h2] at h; exact absurd h (by simp)
      | ok its =>
        rw [h2] at h
        simp only [Except.ok.injEq] at h
        rw [← h]
        simp [ih its h2]

lemma lookup_store_put_self (s : Store) (k : String) (v : Item) :
    (store_put s k v).lookup k = some v := by
  induction s with
  | nil => simp [store_put, List.lookup]
  | cons hd tl ih =>
    obtain ⟨k', v'⟩ := hd
    unfold store_put
    by_cases hkk : k' = k
    · subst hkk
      simp [List.lookup]
    · rw [if_neg hkk]
      simp only [List.lookup]
      rw [show (k == k') = false from beq_eq_false_iff_ne.mpr (Ne.symm hkk)]
      exact ih

lemma lookup_store_put_ne (s : Store) (k k' : String) (v : Item) (h : k' ≠ k) :
    (store_put s k v).lookup k' = s.lookup k' := by
  induction s with
  | nil =>
    simp only [store_put, List.lookup]
    rw [show (k' == k) = false from beq_eq_false_iff_ne.mpr h]
  | cons hd tl ih =>
    obtain ⟨k0, v0⟩ := hd
    unfold store_put
    by_cases hk0 : k0 = k
    · subst hk0
      simp only [List.lookup]
      rw [show (k' == k0) = false from beq_eq_false_iff_ne.mpr h]
    · rw [if_neg hk0]
      simp only [List.lookup]
      cases hbe : (k' == k0) with
      | true => rfl
      | false => exact ih

/-- A run of the conditional writer leaves every key outside the batch
untouched. -/
lemma save_lookup_of_not_mem (l : List Item) (s : Store) (k : String)
    (h : k ∉ l.map item_id) :
    (save_sismos_to_dynamodb l s).1.lookup k = s.lookup k := by
  induction l generalizing s with
  | nil => rfl
  | cons it rest ih =>
    simp only [List.map_cons, List.mem_cons, not_or] at h
    obtain ⟨h1, h2⟩ := h
    unfold save_sismos_to_dynamodb
    cases hlk : s.lookup (item_id it) with
    | some w => exact ih s h2
    | none =>
      rw [ih (store_put s (item_id it) it) h2]
      exact lookup_store_put_ne s (item_id it) k it h1

/-- First run of the conditional writer on records with pairwise
distinct ids, none of which is already stored: every record is
written, none hits the conditional-check failure, and every record is
retrievable afterwards. -/
lemma save_fresh (l : List Item) (s : Store)
    (hfresh : ∀ it ∈ l, s.lookup (item_id it) = none)
    (hnd : (l.map item_id).Nodup) :
    (save_sismos_to_dynamodb l s).2.1 = l.length ∧
    (save_sismos_to_dynamodb l s).2.2 = 0 ∧
    ∀ it ∈ l, (save_sismos_to_dynamodb l s).1.lookup (item_id it) = some it := by
  induction l generalizing s with
  | nil => exact ⟨rfl, rfl, by intro it hit; cases hit⟩
  | cons it rest ih =>
    simp only [List.map_cons, List.nodup_cons] at hnd
    obtain ⟨hnotin, hnd'⟩ := hnd
    have h0 : s.lookup (item_id it) = none := hfresh it (List.mem_cons_self it rest)
    have hfresh' : ∀ jt ∈ rest, (store_put s (item_id it) it).lookup (item_id jt) = none := by
      intro jt hjt
      have hne : item_id jt ≠ item_id it := by
        intro hc
        exact hnotin (hc ▸ List.mem_map_of_mem item_id hjt)
      rw [lookup_store_put_ne s (item_id it) (item_id jt) it hne]
      exact hfresh jt (List.mem_cons_of_mem it hjt)
    obtain ⟨hw, hae, hmem⟩ := ih (store_put s (item_id it) it) hfresh' hnd'
    unfold save_sismos_to_dynamodb
    rw [h0]
    refine ⟨by simpa using hw, by simpa using hae, ?_⟩
    intro jt hjt
    rcases List.mem_cons.mp hjt with hjt | hjt
    · subst hjt
      show (save_sismos_to_dynamodb rest (store_put s (item_id jt) jt)).1.lookup (item_id jt)
        = some jt
      rw [save_lookup_of_not_mem rest (store_put s (item_id jt) jt) (item_id jt) hnotin]
      exact lookup_store_put_self s (item_id jt) jt
    · exact hmem jt hjt

/-- Second run of the conditional writer: when every record's id is
already stored, nothing is written, the store is unchanged, and every
record hits the conditional-check failure. -/
lemma save_all_present (l : List Item) (s : Store)
    (h : ∀ it ∈ l, (s.lookup (item_id it)).isSome = true) :
    save_sismos_to_dynamodb l s = (s, 0, l.length) := by
  induction l with
  | nil => rfl
  | cons it rest ih =>
    have h0 := h it (List.mem_cons_self it rest)
    unfold save_sismos_to_dynamodb
    cases hlk : s.lookup (item_id it) with
    | none => rw [hlk] at h0; simp at h0
    | some w =>
      rw [ih (fun jt hjt => h jt (List.mem_cons_of_mem it hjt))]
      rfl

/-- C1 (counterexample).  The claim says the Store Writer uses a
conditional write that never overwrites, so that a second run of the
same set reports `written = 0`.  The scraper's Store Writer
`_put_items` (src/igp_scraper.py:130-141) contradicts this at a
concrete input: writing the one-record set `{id "A"}` twice reports
count 1 on the second run as well (not 0), and an unconditional put
under an existing id replaces the stored field values. -/
theorem put_items_overwrites_and_recounts :
    (put_items [[("id", Value.vStr "A"), ("v", Value.vInt 1)]]
      (put_items [[("id", Value.vStr "A"), ("v", Value.vInt 1)]] []).1).2 = 1 ∧
    (put_items [[("id", Value.vStr "A"), ("v", Value.vInt 2)]]
      [("A", [("id", Value.vStr "A"), ("v", Value.vInt 1)])]).1.lookup "A" =
      some [("id", Value.vStr "A"), ("v", Value.vInt 2)] := by
  exact ⟨rfl, rfl⟩

/-- C1 (amended).  Only the api variant's Store Writer
`save_sismos_to_dynamodb` (src/igp_sismos_api.py:391-420) persists with
a conditional `attribute_not_exists(id)` write: for N records with
pairwise distinct ids, none already stored, the first run reports
`saved = N` with no conditional-check failures, and the second run
reports `saved = 0` with N conditional-check failures and leaves the
store — hence every persisted field value — unchanged.  The scraper's
`_put_items` instead overwrites by primary key and reports count N on
every run. -/
theorem save_sismos_first_write_wins (l : List Item) (s : Store)
    (hfresh : ∀ it ∈ l, s.lookup (item_id it) = none)
    (hnd : (l.map item_id).Nodup) :
    (save_sismos_to_dynamodb l s).2.1 = l.length ∧
    (save_sismos_to_dynamodb l s).2.2 = 0 ∧
    save_sismos_to_dynamodb l (save_sismos_to_dynamodb l s).1 =
      ((save_sismos_to_dynamodb l s).1, 0, l.length) := by
  obtain ⟨hw, hae, hmem⟩ := save_fresh l s hfresh hnd
  refine ⟨hw, hae, ?_⟩
  exact save_all_present l _ (fun it hit => by rw [hmem it hit]; rfl)

/-- C1 (witness): the amended theorem at the concrete two-record set
`{id "A"}, {id "B"}` over the empty store. -/
theorem save_sismos_first_write_wins_witness :
    (save_sismos_to_dynamodb [[("id", Value.vStr "A")], [("id", Value.vStr "B")]] []).2.1 = 2 ∧
    (save_sismos_to_dynamodb [[("id", Value.vStr "A")], [("id", Value.vStr "B")]] []).2.2 = 0 ∧
    save_sismos_to_dynamodb [[("id", Value.vStr "A")], [("id", Value.vStr "B")]]
        (save_sismos_to_dynamodb [[("id", Value.vStr "A")], [("id", Value.vStr "B")]] []).1 =
      ((save_sismos_to_dynamodb [[("id", Value.vStr "A")], [("id", Value.vStr "B")]] []).1, 0, 2) :=
  save_sismos_first_write_wins [[("id", Value.vStr "A")], [("id", Value.vStr "B")]] []
    (by decide) (by decide)

/-- C4 (counterexample).  The claim says the Fetcher fails with
`UpstreamError` when the feature list is absent or empty.
`_arcgis_last10` (src/igp_scraper.py:65) instead reads
`data.get("features", [])` and returns successfully with an empty
list in both cases. -/
theorem arcgis_last10_empty_features_ok :
    arcgis_last10 (.response 200 ⟨none, none⟩) = .ok [] ∧
    arcgis_last10 (.response 200 ⟨none, some []⟩) = .ok [] := by
  exact ⟨rfl, rfl⟩

/-- C4 (amended).  `_arcgis_last10` fails exactly when the transport
raises, or the status is non-success (`raise_for_status`), or the
decoded body carries an `error` field; an absent or empty feature
list is returned as a successful empty batch, and otherwise the
attributes mapping of every feature is returned (an absent or null
`attributes` key yields an empty mapping). -/
theorem arcgis_last10_failure_characterization (r : HttpResult) :
    (∀ m, r = .transportError m → arcgis_last10 r = .error (.transport m)) ∧
    (∀ st body, r = .response st body → raises_for_status st = true →
      arcgis_last10 r = .error (.httpError st)) ∧
    (∀ st body m, r = .response st body → raises_for_status st = false →
      body.error = some m →
      arcgis_last10 r = .error (.runtimeError ("ArcGIS error: " ++ m))) ∧
    (∀ st body, r = .response st body → raises_for_status st = false →
      body.error = none →
      arcgis_last10 r = .ok ((body.features.getD []).map (fun f => f.getD []))) := by
  refine ⟨?_, ?_, ?_, ?_⟩
  · intro m hm
    subst hm
    rfl
  · intro st body hr hst
    subst hr
    simp [arcgis_last10, hst]
  · intro st body m hr hst herr
    subst hr
    simp [arcgis_last10, hst, herr]
  · intro st body hr hst herr
    subst hr
    simp [arcgis_last10, hst, herr]

/-- C4 (witness): the characterization applied to a concrete
successful response carrying one feature. -/
theorem arcgis_last10_failure_characterization_witness :
    arcgis_last10 (.response 200 ⟨none, some [some [("lat", Value.vInt 1)]]⟩) =
      .ok [[("lat", Value.vInt 1)]] :=
  (arcgis_last10_failure_characterization
      (.response 200 ⟨none, some [some [("lat", Value.vInt 1)]]⟩)).2.2.2
    200 ⟨none, some [some [("lat", Value.vInt 1)]]⟩ rfl rfl rfl

/-- C3 (counterexample).  The claim says every upstream failure —
including a decoded body with an `error` field — yields HTTP 502.  In
`lambda_handler` the `RuntimeError` raised for an `error` body field
is caught by `except Exception` (src/igp_scraper.py:169), not by
`except requests.HTTPError`, so the response is 500, not 502. -/
theorem error_body_yields_500_not_502 :
    (lambda_handler (.response 200 ⟨some "Invalid query", none⟩) 0 []).1.statusCode = 500 ∧
    ¬ (lambda_handler (.response 200 ⟨some "Invalid query", none⟩) 0 []).1.statusCode = 502 := by
  exact ⟨rfl, by decide⟩

/-- C3 (amended).  Whenever the upstream query fails, no store write
is attempted (the store is returned unchanged), the body carries
`ok = false` with an error string, and the status is 502 exactly for a
non-success HTTP status (`requests.HTTPError`); a transport failure or
an `error`-field body is caught by the generic handler and yields
500. -/
theorem upstream_failure_no_writes (r : HttpResult) (now : Int) (store : Store)
    (e : FetchError) (h : arcgis_last10 r = .error e) :
    (lambda_handler r now store).2 = store ∧
    (lambda_handler r now store).1.ok = false ∧
    ((lambda_handler r now store).1.errMsg).isSome = true ∧
    (lambda_handler r now store).1.statusCode = expected_status e := by
  cases e with
  | httpError st =>
    unfold lambda_handler
    rw [h]
    exact ⟨rfl, rfl, rfl, rfl⟩
  | runtimeError m =>
    unfold lambda_handler
    rw [h]
    exact ⟨rfl, rfl, rfl, rfl⟩
  | transport m =>
    unfold lambda_handler
    rw [h]
    exact ⟨rfl, rfl, rfl, rfl⟩

/-- C3 (witness): the amended theorem at a concrete 404 response and a
concrete `error`-field body, over a one-item store. -/
theorem upstream_failure_no_writes_witness :
    (lambda_handler (.response 404 ⟨none, none⟩) 0 [("A", [])]).2 = [("A", [])] ∧
    (lambda_handler (.response 404 ⟨none, none⟩) 0 [("A", [])]).1.ok = false ∧
    ((lambda_handler (.response 404 ⟨none, none⟩) 0 [("A", [])]).1.errMsg).isSome = true ∧
    (lambda_handler (.response 404 ⟨none, none⟩) 0 [("A", [])]).1.statusCode =
      expected_status (.httpError 404) :=
  upstream_failure_no_writes (.response 404 ⟨none, none⟩) 0 [("A", [])]
    (.httpError 404) rfl

lemma iso_offset_str_zero (w : Int) : iso_offset_str ⟨w, 0⟩ = "+00:00" := by
  unfold iso_offset_str
  dsimp only
  decide

lemma iso_offset_str_lima (w : Int) : iso_offset_str ⟨w, -300⟩ = "-05:00" := by
  unfold iso_offset_str
  dsimp only
  decide

lemma isoformat_offset_zero (w : Int) :
    isoformat ⟨w, 0⟩ = iso_wall_str ⟨w, 0⟩ ++ "+00:00" := by
  unfold isoformat
  rw [iso_offset_str_zero]

lemma isoformat_offset_lima (w : Int) :
    isoformat ⟨w, -300⟩ = iso_wall_str ⟨w, -300⟩ ++ "-05:00" := by
  unfold isoformat
  rw [iso_offset_str_lima]

/-- C5 (confirmed).  Whenever `_parse_epoch_ms` converts a timestamp
successfully, the derived pair denotes the same instant, the local
wall clock is exactly 5 hours (18000000 ms) behind the UTC wall
clock, the offsets are the fixed `+00:00` and `-05:00` (never a
timezone-database offset), and the rendered ISO strings end in those
offsets — for every timestamp value. -/
theorem local_time_fixed_utc_minus_5 (v : Value) (du dl : PyDateTime)
    (h : parse_epoch_core v = some (du, dl)) :
    du.instantMs = dl.instantMs ∧
    du.wallMs - dl.wallMs = 18000000 ∧
    du.offsetMin = 0 ∧
    dl.offsetMin = -300 ∧
    parse_epoch_ms v = (isoformat du, isoformat dl) ∧
    isoformat du = iso_wall_str du ++ "+00:00" ∧
    isoformat dl = iso_wall_str dl ++ "-05:00" := by
  have h0 : parse_epoch_ms v = (isoformat du, isoformat dl) := by
    unfold parse_epoch_ms
    rw [h]
  unfold parse_epoch_core at h
  cases hv : py_int v with
  | none => rw [hv] at h; exact absurd h (by simp)
  | some t =>
    rw [hv] at h
    replace h :
        (if t < MIN_EPOCH_MS ∨ MAX_EPOCH_MS < t then (none : Option (PyDateTime × PyDateTime))
         else if t + (-5 * 3600000) < MIN_EPOCH_MS then none
         else some (⟨t, 0⟩, ⟨t + (-5 * 3600000), -300⟩)) = some (du, dl) := h
    by_cases h1 : t < MIN_EPOCH_MS ∨ MAX_EPOCH_MS < t
    · rw [if_pos h1] at h
      exact absurd h (by simp)
    · rw [if_neg h1] at h
      by_cases h2 : t + (-5 * 3600000) < MIN_EPOCH_MS
      · rw [if_pos h2] at h
        exact absurd h (by simp)
      · rw [if_neg h2] at h
        simp only [Option.some.injEq, Prod.mk.injEq] at h
        obtain ⟨hdu, hdl⟩ := h
        subst hdu
        subst hdl
        refine ⟨by simp only [PyDateTime.instantMs]; omega,
          by simp only [PyDateTime.instantMs]; omega, rfl, rfl, h0,
          isoformat_offset_zero t, isoformat_offset_lima (t + (-5 * 3600000))⟩

/-- C5 (witness): the theorem at the concrete timestamp
1700000000000 ms (2023-11-14T22:13:20Z). -/
theorem local_time_fixed_utc_minus_5_witness :
    (⟨1700000000000, 0⟩ : PyDateTime).instantMs =
      (⟨1699982000000, -300⟩ : PyDateTime).instantMs ∧
    parse_epoch_ms (Value.vInt 1700000000000) =
      (isoformat ⟨1700000000000, 0⟩, isoformat ⟨1699982000000, -300⟩) :=
  ⟨(local_time_fixed_utc_minus_5 (Value.vInt 1700000000000)
      ⟨1700000000000, 0⟩ ⟨1699982000000, -300⟩ (by decide)).1,
   (local_time_fixed_utc_minus_5 (Value.vInt 1700000000000)
      ⟨1700000000000, 0⟩ ⟨1699982000000, -300⟩ (by decide)).2.2.2.2.1⟩

/-- C2 (counterexample).  The claim says a record whose magnitude,
latitude or longitude is null after coercion is dropped and the batch
count decreases by one.  Feeding the pipeline one feature with an
empty attributes mapping (all three null) yields a 200 response with
`saved = 1`, and the record is persisted: `_to_item` has no
validation and `lambda_handler` stores everything it maps. -/
theorem invalid_record_stored_not_dropped :
    (lambda_handler (.response 200 ⟨none, some [some []]⟩) 0 []).1.saved = some 1 ∧
    (lambda_handler (.response 200 ⟨none, some [some []]⟩) 0 []).1.statusCode = 200 ∧
    (lambda_handler (.response 200 ⟨none, some [some []]⟩) 0 []).2 =
      [("OBJ-None", item_empty_attrs)] := by
  exact ⟨rfl, rfl, rfl⟩

/-- C2 (amended).  A record with a null `magnitud` after coercion is
NOT dropped: the null field is stripped from the item, the record
still appears in the normalized batch, no exception propagates for a
null value, and the batch count always equals the input count. -/
theorem null_magnitude_kept_not_dropped (a : AttrMap) (now : Int) (item : Item)
    (h : to_item a now = .ok item) (hmag : pyGet a "magnitud" = Value.vNull) :
    item.lookup "magnitud" = none ∧
    map_to_items [a] now = .ok [item] ∧
    (∀ attrs items, map_to_items attrs now = .ok items →
      items.length = attrs.length) := by
  refine ⟨magnitud_null_stripped h hmag, ?_,
    fun attrs items hh => map_to_items_length attrs now items hh⟩
  unfold map_to_items
  rw [h]
  rfl

/-- C2 (witness): the amended theorem at the empty attributes
mapping. -/
theorem null_magnitude_kept_not_dropped_witness :
    item_empty_attrs.lookup "magnitud" = none ∧
    map_to_items [[]] 0 = .ok [item_empty_attrs] :=
  ⟨(null_magnitude_kept_not_dropped [] 0 item_empty_attrs rfl rfl).1,
   (null_magnitude_kept_not_dropped [] 0 item_empty_attrs rfl rfl).2.1⟩

/-- C6 (counterexample).  The claim says the Normalizer resolves
fields through case-variant/synonym alias lists, so that raw keys
`LAT`/`lon`/`MAGNITUDE` yield latitude, longitude and magnitude.
`_to_item` consults only the exact lowercase keys, so on that input
the produced item has no `lat` and no `magnitud` field at all. -/
theorem no_alias_resolution :
    ok_lookup (to_item [("LAT", Value.vStr "-12.05"), ("lon", Value.vStr "-77.03"),
      ("MAGNITUDE", Value.vStr "4.5")] 0) "lat" = none ∧
    ok_lookup (to_item [("LAT", Value.vStr "-12.05"), ("lon", Value.vStr "-77.03"),
      ("MAGNITUDE", Value.vStr "4.5")] 0) "magnitud" = none := by
  exact ⟨rfl, rfl⟩

/-- C6 (amended).  `_to_item` resolves each field through exactly one
fixed lowercase key (`lat`, `lon`, `magnitud`, ...), not an alias
list.  On the claim's input only `lon` is recognized and kept as the
exact decimal -77.03; the same values under the exact lowercase keys
are all recognized as exact decimals. -/
theorem exact_lowercase_keys_only :
    ok_lookup (to_item [("LAT", Value.vStr "-12.05"), ("lon", Value.vStr "-77.03"),
      ("MAGNITUDE", Value.vStr "4.5")] 0) "lon" = some (Value.vDec (-7703) 2) ∧
    ok_lookup (to_item [("LAT", Value.vStr "-12.05"), ("lon", Value.vStr "-77.03"),
      ("MAGNITUDE", Value.vStr "4.5")] 0) "lat" = none ∧
    ok_lookup (to_item [("LAT", Value.vStr "-12.05"), ("lon", Value.vStr "-77.03"),
      ("MAGNITUDE", Value.vStr "4.5")] 0) "magnitud" = none ∧
    ok_lookup (to_item [("lat", Value.vStr "-12.05"), ("lon", Value.vStr "-77.03"),
      ("magnitud", Value.vStr "4.5")] 0) "lat" = some (Value.vDec (-1205) 2) ∧
    ok_lookup (to_item [("lat", Value.vStr "-12.05"), ("lon", Value.vStr "-77.03"),
      ("magnitud", Value.vStr "4.5")] 0) "lon" = some (Value.vDec (-7703) 2) ∧
    ok_lookup (to_item [("lat", Value.vStr "-12.05"), ("lon", Value.vStr "-77.03"),
      ("magnitud", Value.vStr "4.5")] 0) "magnitud" = some (Value.vDec 45 1) := by
  exact ⟨rfl, rfl, rfl, rfl, rfl, rfl⟩

/-- C7 (counterexample).  The claim says a failed decimal coercion
yields a null field rather than an exception.  A non-null,
non-numeric `magnitud` makes `decimal.Decimal(str(...))` raise
`InvalidOperation`, aborting `_to_item` — and through the generic
handler the whole batch answers 500 with nothing stored. -/
theorem bad_decimal_aborts_batch :
    to_item [("magnitud", Value.vStr "abc")] 0 = .error "InvalidOperation" ∧
    (lambda_handler (.response 200 ⟨none, some [some [("magnitud", Value.vStr "abc")]]⟩)
      0 []).1.statusCode = 500 ∧
    (lambda_handler (.response 200 ⟨none, some [some [("magnitud", Value.vStr "abc")]]⟩)
      0 []).2 = [] := by
  exact ⟨rfl, rfl, rfl⟩

/-- C7 (amended).  The Normalizer is total only on null inputs: a
null raw value yields a stripped field, and a missing or malformed
event timestamp yields empty time strings without failing the record;
but a non-null value whose decimal coercion fails raises an exception
that aborts the whole batch. -/
theorem coercion_failure_raises (s : String) (now : Int)
    (h : parse_decimal s = none) :
    to_item [("magnitud", Value.vStr s)] now = .error "InvalidOperation" ∧
    (∀ v, parse_epoch_core v = none → parse_epoch_ms v = ("", "")) ∧
    (∀ a item, to_item a now = .ok item → pyGet a "magnitud" = Value.vNull →
      item.lookup "magnitud" = none) := by
  refine ⟨?_, ?_, fun a item hh hm => magnitud_null_stripped hh hm⟩
  · have hc : coerce_dec (Value.vStr s) = .error "InvalidOperation" := by
      unfold coerce_dec
      dsimp only [Value.pyStr]
      rw [h]
    unfold to_item
    rw [show pyGet [("magnitud", Value.vStr s)] "magnitud" = Value.vStr s from rfl, hc]
  · intro v hv
    unfold parse_epoch_ms
    rw [hv]

/-- C7 (witness): the amended theorem at the non-numeric magnitude
`"abc"` and the malformed timestamp `"xyz"`. -/
theorem coercion_failure_raises_witness :
    to_item [("magnitud", Value.vStr "abc")] 5 = .error "InvalidOperation" ∧
    parse_epoch_ms (Value.vStr "xyz") = ("", "") :=
  ⟨(coercion_failure_raises "abc" 5 rfl).1,
   (coercion_failure_raises "abc" 5 rfl).2.1 (Value.vStr "xyz") rfl⟩

/-- C8 (confirmed).  `_to_item` prefers the agency `code` field for
the id (whenever `code` is present and truthy its string rendering is
the id), and otherwise synthesizes `"OBJ-" + str(objectid)`; in
particular an absent `code` always takes the fallback. -/
theorem id_prefers_code_else_objectid (a : AttrMap) (now : Int) (item : Item)
    (h : to_item a now = .ok item) :
    ((pyGet a "code").truthy = true →
      item.lookup "id" = some (.vStr ((pyGet a "code").pyStr))) ∧
    ((pyGet a "code").truthy = false →
      item.lookup "id" = some (.vStr ("OBJ-" ++ (pyGet a "objectid").pyStr))) := by
  obtain ⟨mag, prof, lat, lon, h1, h2, h3, h4, hitem⟩ := to_item_ok h
  subst hitem
  constructor
  · intro htr
    rw [strip_lookup_id]
    unfold id_val
    rw [if_pos htr]
  · intro hf
    rw [strip_lookup_id]
    unfold id_val
    rw [if_neg (by rw [hf]; exact Bool.false_ne_true)]

/-- C8 (witness): the theorem at the claim's concrete input
`{"objectid": 998877}`, which yields id `"OBJ-998877"`. -/
theorem id_prefers_code_else_objectid_witness :
    item_objectid.lookup "id" = some (Value.vStr "OBJ-998877") :=
  ((id_prefers_code_else_objectid [("objectid", Value.vInt 998877)] 0
      item_objectid rfl).2 rfl).trans (by decide)

/-- C9 (counterexample).  The claim says the output record carries no
null and no empty fields.  Only `None` values are stripped: an absent
`code` key defaults to the empty string, which is kept, so the item
carries empty-string fields. -/
theorem empty_string_fields_retained :
    ok_lookup (to_item [] 0) "code" = some (Value.vStr "") ∧
    ok_lookup (to_item [] 0) "fecha_local" = some (Value.vStr "") := by
  exact ⟨rfl, rfl⟩

/-- C9 (amended).  Every record output by the Normalizer carries no
null fields — the comprehension on line 126 strips exactly the `None`
values — but empty-string fields are retained. -/
theorem no_null_fields_in_output (a : AttrMap) (now : Int) (item : Item)
    (h : to_item a now = .ok item) :
    ∀ k v, (k, v) ∈ item → v ≠ Value.vNull := by
  obtain ⟨mag, prof, lat, lon, h1, h2, h3, h4, hitem⟩ := to_item_ok h
  subst hitem
  intro k v hmem
  have hp := List.of_mem_filter hmem
  simpa using hp

/-- C9 (witness): the theorem at the empty attributes mapping and its
`code` binding. -/
theorem no_null_fields_in_output_witness : Value.vStr "" ≠ Value.vNull :=
  no_null_fields_in_output [] 0 item_empty_attrs rfl "code" (Value.vStr "") (by decide)

/-- C10 (confirmed).  Every record `_to_item` produces carries an
`id` field holding a non-empty string; when both `code` and
`objectid` are absent the id is the literal string `"OBJ-None"`
(so batch-uniqueness of ids is not guaranteed for such inputs). -/
theorem normalized_id_nonempty (a : AttrMap) (now : Int) (item : Item)
    (h : to_item a now = .ok item) :
    item.lookup "id" = some (.vStr (id_val a)) ∧
    id_val a ≠ "" ∧
    (pyGet a "code" = Value.vNull → pyGet a "objectid" = Value.vNull →
      id_val a = "OBJ-None") := by
  obtain ⟨mag, prof, lat, lon, h1, h2, h3, h4, hitem⟩ := to_item_ok h
  subst hitem
  refine ⟨strip_lookup_id a now mag prof lat lon, id_val_ne_empty a, ?_⟩
  intro hc ho
  unfold id_val
  rw [hc, ho]
  decide

/-- C10 (witness): the theorem at the empty attributes mapping, where
both `code` and `objectid` are absent. -/
theorem normalized_id_nonempty_witness :
    item_empty_attrs.lookup "id" = some (Value.vStr (id_val [])) ∧
    id_val [] ≠ "" ∧ id_val [] = "OBJ-None" :=
  ⟨(normalized_id_nonempty [] 0 item_empty_attrs rfl).1,
   (normalized_id_nonempty [] 0 item_empty_attrs rfl).2.1,
   (normalized_id_nonempty [] 0 item_empty_attrs rfl).2.2 rfl rfl⟩

end IgpSismos
